import Mathlib

/-!
Shallow embedding of the dynamic pricing engine of the ratai24 car rental
service (src/src/pricing/pricing.service.js and its calculators), together
with theorems settling the specification claims about it.

Conventions of the embedding:
* prices and multipliers are exact rationals;
* timestamps are integers (milliseconds since the epoch), so a JavaScript
  date subtraction becomes integer subtraction;
* nullable database columns become Option values;
* the JavaScript expression `x || d` on a nullable number is modelled as
  returning d when x is absent or equal to 0 (0 is falsy in JavaScript);
* `Math.round(x * 100) / 100` becomes round2 below (floor of x*100 + 1/2,
  divided by 100, which is exactly the JavaScript rounding on the
  magnitudes involved);
* database queries are replaced by explicit arguments: the orchestrator
  receives the car record, the externally computed multipliers and the
  full list of pricing rules, and the rule resolver filters that list
  exactly as the effective Prisma where-clause does.
-/

/-- Two-decimal rounding, the embedding of Math.round(x * 100) / 100. -/
def round2 (x : ℚ) : ℚ := (⌊x * 100 + 1 / 2⌋ : ℚ) / 100

/-- JavaScript `x || d` on a nullable number: d when x is null or 0. -/
def jsFalsyOr (x : Option ℚ) (d : ℚ) : ℚ :=
  match x with
  | none => d
  | some v => if v = 0 then d else v

/-- Embedding of `Math.ceil((endDate - startDate) / (1000*60*60*24))`,
the rental duration in whole days (timestamps in milliseconds). -/
def rentalDuration (startDate endDate : ℤ) : ℤ :=
  ⌈((endDate - startDate : ℤ) : ℚ) / 86400000⌉

/-- Subset of the Car record used by the pricing engine. -/
structure Car where
  id : Nat
  cityId : Nat
  pricePerDay : ℚ
  availableForLease : Bool
  useDynamicPricing : Bool
  minPricePerDay : Option ℚ
  maxPricePerDay : Option ℚ
  maintenanceScore : Option ℚ
  utilizationRate : Option ℚ

/-- An admin PricingRule row. -/
structure PricingRule where
  name : String
  description : Option String
  priority : ℤ
  isActive : Bool
  carId : Option Nat
  cityId : Option Nat
  startDate : Option ℤ
  endDate : Option ℤ
  fixedPrice : Option ℚ
  multiplier : Option ℚ
  minPrice : Option ℚ
  maxPrice : Option ℚ

/-- Entry recorded when a rule actually changed the running price. -/
structure AppliedRule where
  name : String
  description : Option String
  adjustment : ℚ
deriving DecidableEq

/-- Result of the rule resolver. -/
structure RuleResolution where
  finalPrice : ℚ
  rules : List AppliedRule

/-- Result record of calculateDynamicPrice. In the fixed-price branch the
source result object carries no maintenance multiplier, no dynamicPrice and
no constraints; those fields are filled with the neutral values 1, the flat
price, and 0 respectively. -/
structure CalcResult where
  carId : Nat
  cityId : Nat
  basePrice : ℚ
  pricePerDay : ℚ
  totalPrice : ℚ
  duration : ℤ
  mDemand : ℚ
  mSeasonal : ℚ
  mUtilization : ℚ
  mMaintenance : ℚ
  mDuration : ℚ
  mCustomer : ℚ
  dynamicPrice : ℚ
  constraintMin : ℚ
  constraintMax : ℚ
  rulesApplied : List AppliedRule
  isDynamic : Bool
deriving DecidableEq

/- ## Calculators (src/src/pricing/calculators) -/

/-- Embedding of calculateDurationMultiplier (duration.calculator.js). -/
def calculateDurationMultiplier (days : ℤ) : ℚ :=
  if days ≤ 2 then 1
  else if days ≤ 6 then 0.95
  else if days ≤ 13 then 0.88
  else if days ≤ 20 then 0.82
  else if days ≤ 29 then 0.75
  else 0.65

/-- Embedding of getMaintenanceMultiplier (utilization.calculator.js).
The source guard `!car.maintenanceScore` is true both when the score is
null and when it is 0, so a zero score takes the no-data branch. -/
def getMaintenanceMultiplier (car : Car) : ℚ :=
  match car.maintenanceScore with
  | none => 1
  | some s =>
    if s = 0 then 1
    else if s ≥ 95 then 1.05
    else if s ≥ 85 then 1
    else if s ≥ 70 then 0.95
    else 0.85

/-- Embedding of the four-segment demand score mapping of
calculateDemandMultiplier (demand.calculator.js, lines 62 to 76). -/
def demandScore (supplyRatio : ℚ) : ℚ :=
  if supplyRatio ≥ 0.7 then 0.7 + (supplyRatio - 0.7) * 0.3
  else if supplyRatio ≥ 0.4 then 0.9 + (0.7 - supplyRatio) * 0.67
  else if supplyRatio ≥ 0.2 then 1.2 + (0.4 - supplyRatio) * 2.5
  else 1.8 + (0.2 - supplyRatio) * 3.5

/-- Embedding of calculateDemandMultiplier given the two database counts:
eligible cars in the city and overlapping active or draft contracts. -/
def calculateDemandMultiplier (totalCars overlappingContracts : ℕ) : ℚ :=
  if totalCars = 0 then 1
  else
    max 0.6 (min 2.5
      (demandScore (((totalCars : ℚ) - (overlappingContracts : ℚ)) / (totalCars : ℚ))))

/- ## Rule resolver (pricing.service.js, applyPricingRules) -/

/-- Scope condition of the first `OR` block of the findMany where-object
(lines 177 to 184): car-specific, city-specific, or global. -/
def ruleScopeOk (car : Car) (r : PricingRule) : Bool :=
  r.carId == some car.id
    || (r.carId == none && r.cityId == some car.cityId)
    || (r.carId == none && r.cityId == none)

/-- Date-window condition of the second `OR` block (lines 186 to 196):
either no dates at all, or startDate ≤ requested end and endDate ≥
requested start; a half-specified window fails both branches, as a null
column never satisfies a Prisma comparison filter. -/
def ruleDatesOk (r : PricingRule) (startDate endDate : ℤ) : Bool :=
  match r.startDate, r.endDate with
  | none, none => true
  | some rs, some re => decide (rs ≤ endDate) && decide (re ≥ startDate)
  | _, _ => false

/-- Effective selection filter of applyPricingRules. The where-object in
the source has two `OR` keys; in JavaScript the later duplicate key
overwrites the earlier one, so the scope condition ruleScopeOk is dropped
and only isActive plus the date window remains. -/
def ruleMatches (r : PricingRule) (startDate endDate : ℤ) : Bool :=
  r.isActive && ruleDatesOk r startDate endDate

/-- Selection filter the source text spells out before the duplicate key
collapses it: isActive, scope and date window together. -/
def ruleMatchesIntended (car : Car) (r : PricingRule) (startDate endDate : ℤ) : Bool :=
  r.isActive && ruleScopeOk car r && ruleDatesOk r startDate endDate

/-- Insertion step for sorting rules by descending priority. -/
def insertRuleDesc (r : PricingRule) : List PricingRule → List PricingRule
  | [] => [r]
  | x :: xs => if r.priority ≥ x.priority then r :: x :: xs else x :: insertRuleDesc r xs

/-- Sort rules by descending priority (orderBy priority desc): the rule
with the highest priority comes first and is therefore applied first. -/
def sortRulesDesc (rules : List PricingRule) : List PricingRule :=
  rules.foldr insertRuleDesc []

/-- Effect of one rule on the running price (loop body, lines 210 to 228):
fixed price replaces the price, otherwise a multiplier scales it, then the
min and max bounds of the rule itself clamp the outcome. -/
def applyRule (price : ℚ) (r : PricingRule) : ℚ :=
  let p1 :=
    match r.fixedPrice with
    | some f => f
    | none =>
      match r.multiplier with
      | some m => price * m
      | none => price
  let p2 := match r.minPrice with | some mn => max p1 mn | none => p1
  match r.maxPrice with | some mx => min p2 mx | none => p2

/-- Fold step of the resolver loop: apply the rule and record it when it
changed the price. -/
def applyRuleStep (acc : ℚ × List AppliedRule) (r : PricingRule) : ℚ × List AppliedRule :=
  let newPrice := applyRule acc.1 r
  if newPrice = acc.1 then acc
  else (newPrice, acc.2 ++ [⟨r.name, r.description, newPrice - acc.1⟩])

/-- Embedding of applyPricingRules: select the matching rules with the
effective filter, sort by descending priority, fold the loop over them and
round the final price to two decimals; with no matching rule the current
price is returned unrounded. -/
def applyPricingRules (allRules : List PricingRule) (startDate endDate : ℤ)
    (currentPrice : ℚ) : RuleResolution :=
  let rules := sortRulesDesc (allRules.filter (fun r => ruleMatches r startDate endDate))
  match rules with
  | [] => ⟨currentPrice, []⟩
  | _ =>
    let res := rules.foldl applyRuleStep (currentPrice, [])
    ⟨round2 res.1, res.2⟩

/- ## Orchestrator (pricing.service.js, calculateDynamicPrice) -/

/-- Steps 5 to 8 of calculateDynamicPrice: product of the base price with
the six multipliers, clamp to the car bounds (falling back to 0.6 and 2.5
times base), then round to two decimals. -/
def clampedDynamicPrice (car : Car) (basePrice demandM seasonalM utilizationM customerM : ℚ)
    (duration : ℤ) : ℚ :=
  let raw := basePrice * demandM * seasonalM * utilizationM
    * getMaintenanceMultiplier car * calculateDurationMultiplier duration * customerM
  let minPrice := jsFalsyOr car.minPricePerDay (basePrice * 0.6)
  let maxPrice := jsFalsyOr car.maxPricePerDay (basePrice * 2.5)
  round2 (max minPrice (min maxPrice raw))

/-- Embedding of calculateDynamicPrice. The car lookup result, the base
price and the four externally computed multipliers (demand, seasonal,
utilization, customer) arrive as arguments; the duration and maintenance
multipliers are computed here as in the source. -/
def calculateDynamicPrice (car? : Option Car)
    (basePrice demandM seasonalM utilizationM customerM : ℚ)
    (rules : List PricingRule) (startDate endDate : ℤ) : Except String CalcResult :=
  match car? with
  | none => .error "Car not found"
  | some car =>
    if car.availableForLease = false then .error "Car is not available for lease"
    else if car.useDynamicPricing = false then
      let duration := rentalDuration startDate endDate
      .ok
        { carId := car.id, cityId := car.cityId
          basePrice := car.pricePerDay, pricePerDay := car.pricePerDay
          totalPrice := car.pricePerDay * duration, duration := duration
          mDemand := 1, mSeasonal := 1, mUtilization := 1, mMaintenance := 1
          mDuration := 1, mCustomer := 1
          dynamicPrice := car.pricePerDay, constraintMin := 0, constraintMax := 0
          rulesApplied := [], isDynamic := false }
    else
      let duration := rentalDuration startDate endDate
      if duration < 1 then .error "Rental duration must be at least 1 day"
      else
        let maintenanceM := getMaintenanceMultiplier car
        let durationM := calculateDurationMultiplier duration
        let minPrice := jsFalsyOr car.minPricePerDay (basePrice * 0.6)
        let maxPrice := jsFalsyOr car.maxPricePerDay (basePrice * 2.5)
        let dynamicPrice := clampedDynamicPrice car basePrice demandM seasonalM utilizationM customerM duration
        let applied := applyPricingRules rules startDate endDate dynamicPrice
        let finalPricePerDay := if applied.finalPrice = 0 then dynamicPrice else applied.finalPrice
        let finalTotalPrice := round2 (finalPricePerDay * duration)
        .ok
          { carId := car.id, cityId := car.cityId
            basePrice := basePrice, pricePerDay := finalPricePerDay
            totalPrice := finalTotalPrice, duration := duration
            mDemand := demandM, mSeasonal := seasonalM, mUtilization := utilizationM
            mMaintenance := maintenanceM, mDuration := durationM, mCustomer := customerM
            dynamicPrice := dynamicPrice, constraintMin := minPrice, constraintMax := maxPrice
            rulesApplied := applied.rules, isDynamic := true }

/-- Snapshot row written by savePricingSnapshot. The schema records the
demand, seasonal, utilization, duration and customer multipliers but not
the maintenance multiplier. -/
structure PricingSnapshot where
  carId : Nat
  cityId : Nat
  calculatedPrice : ℚ
  basePrice : ℚ
  demandMultiplier : ℚ
  seasonalMultiplier : ℚ
  utilizationMultiplier : ℚ
  durationMultiplier : ℚ
  customerMultiplier : ℚ
  finalPrice : ℚ
  availableCars : ℤ
  activeContracts : ℤ
  duration : ℤ

/-- Embedding of savePricingSnapshot: the row built from a calculation
result and the two live availability counts queried at persistence time. -/
def savePricingSnapshot (r : CalcResult) (totalCars activeContracts : ℤ) : PricingSnapshot :=
  { carId := r.carId, cityId := r.cityId
    calculatedPrice := r.dynamicPrice, basePrice := r.basePrice
    demandMultiplier := r.mDemand, seasonalMultiplier := r.mSeasonal
    utilizationMultiplier := r.mUtilization, durationMultiplier := r.mDuration
    customerMultiplier := r.mCustomer, finalPrice := r.pricePerDay
    availableCars := totalCars - activeContracts, activeContracts := activeContracts
    duration := r.duration }

/- ## Helpers for stating claims -/

/-- Per-day price of a calculation outcome, 0 on error. -/
def pricePerDayOf (r : Except String CalcResult) : ℚ :=
  match r with
  | .ok res => res.pricePerDay
  | .error _ => 0

/-- Whether a calculation outcome is a success. -/
def calcOk (r : Except String CalcResult) : Bool :=
  match r with
  | .ok _ => true
  | .error _ => false

/-- Result of a calculation outcome, a zero record on error. -/
def getResult (r : Except String CalcResult) : CalcResult :=
  match r with
  | .ok res => res
  | .error _ =>
    { carId := 0, cityId := 0, basePrice := 0, pricePerDay := 0, totalPrice := 0
      duration := 0, mDemand := 0, mSeasonal := 0, mUtilization := 0, mMaintenance := 0
      mDuration := 0, mCustomer := 0, dynamicPrice := 0, constraintMin := 0
      constraintMax := 0, rulesApplied := [], isDynamic := false }

/- ## Concrete fixtures used by the claim theorems -/

/-- A lease-eligible car with dynamic pricing on and no optional data set. -/
def carDyn : Car :=
  { id := 1, cityId := 1, pricePerDay := 80, availableForLease := true
    useDynamicPricing := true, minPricePerDay := none, maxPricePerDay := none
    maintenanceScore := none, utilizationRate := none }

/-- Same car with both price bounds set to 40 and 60. -/
def carBounded : Car :=
  { carDyn with minPricePerDay := some 40, maxPricePerDay := some 60 }

/-- Same car with dynamic pricing disabled. -/
def carFixedPrice : Car := { carDyn with useDynamicPricing := false }

/-- Same car with a maintenance score of 50. -/
def carMaint50 : Car := { carDyn with maintenanceScore := some 50 }

/-- Same car with a maintenance score of exactly 0. -/
def carScoreZero : Car := { carDyn with maintenanceScore := some 0 }

/-- Active global rule: fixed price 50, priority 10, no dates, no clamps. -/
def ruleFixed50 : PricingRule :=
  { name := "fixed50", description := none, priority := 10, isActive := true
    carId := none, cityId := none, startDate := none, endDate := none
    fixedPrice := some 50, multiplier := none, minPrice := none, maxPrice := none }

/-- Active global rule: multiplier 0.9, priority 5, no dates, no clamps. -/
def ruleMult09 : PricingRule :=
  { ruleFixed50 with
    name := "mult09"
    priority := 5
    fixedPrice := none
    multiplier := some 0.9 }

/-- Active rule scoped to car 2, fixed price 99, no dates. -/
def ruleOtherCar : PricingRule :=
  { ruleFixed50 with
    name := "otherCar"
    priority := 1
    carId := some 2
    fixedPrice := some 99 }

/-- Active global rule: fixed price 500, no dates, no clamps. -/
def ruleFixed500 : PricingRule :=
  { ruleFixed50 with name := "fixed500", priority := 1, fixedPrice := some 500 }

/-- Active global rule: fixed price 0, no dates, no clamps. -/
def ruleFixedZero : PricingRule :=
  { ruleFixed50 with name := "fixedZero", priority := 1, fixedPrice := some 0 }

/-- Snapshot written by a persist call for carMaint50 over one day with
base price 100, all external multipliers 1 and no rules, with 10 cars and
2 active contracts in the city at persistence time. -/
def snapC6 : PricingSnapshot :=
  savePricingSnapshot
    (getResult (calculateDynamicPrice (some carMaint50) 100 1 1 1 1 [] 0 86400000)) 10 2

/- ## Shared rounding bounds -/

/-- Lower bound: rounding to two decimals cannot go below a whole-cent
lower bound that the unrounded value satisfies. -/
theorem round2_intdiv_le {a : ℤ} {x : ℚ} (h : (a : ℚ) / 100 ≤ x) :
    (a : ℚ) / 100 ≤ round2 x := by
  unfold round2
  have hx : (a : ℚ) ≤ x * 100 := by
    have := (div_le_iff₀ (by norm_num : (0:ℚ) < 100)).mp h
    linarith
  have hfl : a ≤ ⌊x * 100 + 1 / 2⌋ := Int.le_floor.mpr (by linarith)
  gcongr

/-- Upper bound: rounding to two decimals cannot exceed a whole-cent
upper bound that the unrounded value satisfies. -/
theorem round2_le_intdiv {b : ℤ} {x : ℚ} (h : x ≤ (b : ℚ) / 100) :
    round2 x ≤ (b : ℚ) / 100 := by
  unfold round2
  have hx : x * 100 ≤ (b : ℚ) := by
    have := (le_div_iff₀ (by norm_num : (0:ℚ) < 100)).mp h
    linarith
  have hfl : ⌊x * 100 + 1 / 2⌋ ≤ b := by
    have hlt : (x * 100 + 1 / 2 : ℚ) < (b : ℚ) + 1 := by linarith
    exact Int.lt_add_one_iff.mp (Int.floor_lt.mpr (by push_cast; linarith))
  gcongr

/- ## C9: duration multiplier -/

/-- Claim C9: the duration multiplier is the stated pure total step
function of the rental day count, it is monotonically non-increasing in
the day count, and it takes value 1.0 at 1 day and 0.65 at 30 days. -/
theorem C9_duration_multiplier :
    (∀ d : ℤ,
      (d ≤ 2 → calculateDurationMultiplier d = 1)
      ∧ (3 ≤ d ∧ d ≤ 6 → calculateDurationMultiplier d = 0.95)
      ∧ (7 ≤ d ∧ d ≤ 13 → calculateDurationMultiplier d = 0.88)
      ∧ (14 ≤ d ∧ d ≤ 20 → calculateDurationMultiplier d = 0.82)
      ∧ (21 ≤ d ∧ d ≤ 29 → calculateDurationMultiplier d = 0.75)
      ∧ (30 ≤ d → calculateDurationMultiplier d = 0.65))
    ∧ (∀ d1 d2 : ℤ, d1 ≤ d2 → calculateDurationMultiplier d2 ≤ calculateDurationMultiplier d1)
    ∧ calculateDurationMultiplier 1 = 1
    ∧ calculateDurationMultiplier 30 = 0.65 := by
  refine ⟨fun d => ?_, fun d1 d2 h => ?_, by norm_num [calculateDurationMultiplier],
    by norm_num [calculateDurationMultiplier]⟩
  · unfold calculateDurationMultiplier
    split_ifs <;>
      refine ⟨fun h1 => ?_, fun h1 => ?_, fun h1 => ?_, fun h1 => ?_, fun h1 => ?_, fun h1 => ?_⟩ <;>
      norm_num <;> omega
  · unfold calculateDurationMultiplier
    split_ifs <;> norm_num <;> omega

/-- Witness for C9: the monotonicity part applied at days 1 and 30. -/
theorem C9_witness :
    calculateDurationMultiplier 30 ≤ calculateDurationMultiplier 1 :=
  C9_duration_multiplier.2.1 1 30 (by norm_num)

/- ## C8: maintenance multiplier -/

/-- Counterexample to claim C8: a maintenance score of exactly 0 lies
below 70, yet the multiplier is 1.0 and not 0.85, because the source
guard treats the falsy score 0 as missing data. -/
theorem C8_counterexample :
    getMaintenanceMultiplier carScoreZero = 1 ∧ (1 : ℚ) ≠ 0.85 := by
  constructor
  · norm_num [getMaintenanceMultiplier, carScoreZero, carDyn]
  · norm_num

/-- Claim C8 as amended: the multiplier is 1.05 for scores at least 95,
1.0 on [85, 95), 0.95 on [70, 85), 0.85 for every nonzero score below
70, and 1.0 when the score is missing or exactly 0. -/
theorem C8_maintenance_multiplier (car : Car) (s : ℚ) :
    (car.maintenanceScore = none → getMaintenanceMultiplier car = 1)
    ∧ (car.maintenanceScore = some s →
        ((s = 0 → getMaintenanceMultiplier car = 1)
        ∧ (95 ≤ s → getMaintenanceMultiplier car = 1.05)
        ∧ (85 ≤ s ∧ s < 95 → getMaintenanceMultiplier car = 1)
        ∧ (70 ≤ s ∧ s < 85 → getMaintenanceMultiplier car = 0.95)
        ∧ (0 < s ∧ s < 70 → getMaintenanceMultiplier car = 0.85))) := by
  constructor
  · intro h; simp [getMaintenanceMultiplier, h]
  · intro h
    simp only [getMaintenanceMultiplier, h]
    refine ⟨fun h1 => ?_, fun h1 => ?_, fun h1 => ?_, fun h1 => ?_, fun h1 => ?_⟩
    · split_ifs <;> norm_num <;> tauto
    · split_ifs <;> norm_num <;> linarith
    · obtain ⟨ha, hb⟩ := h1
      split_ifs <;> norm_num <;> linarith
    · obtain ⟨ha, hb⟩ := h1
      split_ifs <;> norm_num <;> linarith
    · obtain ⟨ha, hb⟩ := h1
      split_ifs <;> norm_num <;> linarith

/-- Witness for C8: the amended bracket facts evaluated at the fixture
cars with scores 0 and 50. -/
theorem C8_witness :
    getMaintenanceMultiplier carScoreZero = 1 ∧ getMaintenanceMultiplier carMaint50 = 0.85 :=
  ⟨((C8_maintenance_multiplier carScoreZero 0).2 rfl).1 rfl,
   ((C8_maintenance_multiplier carMaint50 50).2 rfl).2.2.2.2 (by norm_num)⟩

/- ## C4: demand score shape -/

/-- Counterexample to claim C4: the demand score is not monotonically
non-increasing in the supply ratio (it increases from 0.7 at ratio 0.7
to 0.79 at ratio 1), and the two segments adjacent to the 0.7 boundary
disagree by about 0.2, far beyond rounding. -/
theorem C4_counterexample :
    ((7 : ℚ) / 10 < 1 ∧ demandScore (7 / 10) < demandScore 1)
    ∧ (1 / 100 : ℚ) < demandScore (699 / 1000) - demandScore (7 / 10) := by
  refine ⟨⟨by norm_num, ?_⟩, ?_⟩ <;> norm_num [demandScore]

/-- Claim C4 as amended: the demand score is monotonically non-increasing
only on supply ratios up to 0.7 and is monotonically non-decreasing on
ratios from 0.7 upward; at each segment boundary the adjacent segments
disagree by a jump (0.2 at ratio 0.7, about 0.1 at 0.4 and at 0.2)
rather than agreeing to within rounding. -/
theorem C4_piecewise_monotonicity :
    (∀ r1 r2 : ℚ, r1 ≤ r2 → r2 ≤ 0.7 → demandScore r2 ≤ demandScore r1)
    ∧ (∀ r1 r2 : ℚ, 0.7 ≤ r1 → r1 ≤ r2 → demandScore r1 ≤ demandScore r2)
    ∧ demandScore 0.7 = 0.7 ∧ demandScore (699 / 1000) - demandScore 0.7 > 0.2
    ∧ demandScore 0.4 = 1.101 ∧ demandScore (399 / 1000) - demandScore 0.4 > 0.09
    ∧ demandScore 0.2 = 1.7 ∧ demandScore (199 / 1000) - demandScore 0.2 > 0.1 := by
  refine ⟨fun r1 r2 h1 h2 => ?_, fun r1 r2 h1 h2 => ?_, ?_, ?_, ?_, ?_, ?_, ?_⟩
  · unfold demandScore; split_ifs <;> linarith
  · unfold demandScore; split_ifs <;> linarith
  all_goals norm_num [demandScore]

/-- Witness for C4: the non-increasing part applied at ratios 0.5 and
0.6, and the non-decreasing part at 0.7 and 1. -/
theorem C4_witness :
    demandScore 0.6 ≤ demandScore 0.5 ∧ demandScore 0.7 ≤ demandScore 1 :=
  ⟨C4_piecewise_monotonicity.1 0.5 0.6 (by norm_num) (by norm_num),
   C4_piecewise_monotonicity.2.1 0.7 1 (by norm_num) (by norm_num)⟩

/- ## C7: boundary scenario at supply ratio 0.2 -/

/-- Counterexample to claim C7: with 10 eligible cars and 8 overlapping
contracts the supply ratio is exactly 0.2, owned by the third segment,
and the demand multiplier is exactly 1.7 — not approximately 1.2. -/
theorem C7_counterexample :
    calculateDemandMultiplier 10 8 = 1.7 ∧ ¬ |(1.7 : ℚ) - 1.2| ≤ 1 / 4 := by
  constructor
  · norm_num [calculateDemandMultiplier, demandScore]
  · rw [abs_le]; norm_num

/-- Claim C7 as amended: the 0.2 boundary is owned by the [0.2, 0.4)
segment, whose formula gives 1.2 + (0.4 − 0.2) × 2.5 = 1.7, so the
scenario with 10 eligible cars and 8 overlapping contracts yields a
demand multiplier of exactly 1.7. -/
theorem C7_boundary_segment :
    calculateDemandMultiplier 10 8 = 1.7
    ∧ demandScore 0.2 = 1.2 + (0.4 - 0.2) * 2.5 := by
  constructor <;> norm_num [calculateDemandMultiplier, demandScore]

/- ## C1: rule priority order scenario -/

/-- Counterexample to claim C1: with a fixed-price-50 rule at priority 10
and a multiplier-0.9 rule at priority 5 both matching, the resolver sorts
by descending priority and applies the priority-10 rule first, so the
multiplier rule runs last and the final per-day price is 45, not 50. -/
theorem C1_counterexample :
    pricePerDayOf (calculateDynamicPrice (some carDyn) 100 1 1 1 1
      [ruleFixed50, ruleMult09] 0 86400000) = 45 ∧ (45 : ℚ) ≠ 50 := by
  constructor
  · norm_num [pricePerDayOf, calculateDynamicPrice, clampedDynamicPrice, applyPricingRules,
      sortRulesDesc, insertRuleDesc, applyRuleStep, applyRule, ruleMatches, ruleDatesOk,
      jsFalsyOr, getMaintenanceMultiplier, calculateDurationMultiplier, rentalDuration,
      round2, carDyn, ruleFixed50, ruleMult09]
  · norm_num

/-- Claim C1 as amended: the resolver applies the priority-10 fixed-price
rule first and the priority-5 multiplier rule last, so whatever running
price the resolver starts from, the final price is 50 × 0.9 = 45. -/
theorem C1_descending_priority (startDate endDate : ℤ) (p : ℚ) :
    (applyPricingRules [ruleFixed50, ruleMult09] startDate endDate p).finalPrice = 45 := by
  by_cases hp : (50 : ℚ) = p
  · subst hp
    norm_num [applyPricingRules, sortRulesDesc, insertRuleDesc, applyRuleStep, applyRule,
      ruleMatches, ruleDatesOk, round2, ruleFixed50, ruleMult09]
  · norm_num [applyPricingRules, sortRulesDesc, insertRuleDesc, applyRuleStep, applyRule,
      ruleMatches, ruleDatesOk, round2, ruleFixed50, ruleMult09, hp]

/- ## C2: rule scope selection -/

/-- Claim C2 exhibited against the code: an active dateless rule scoped to
car 2 fails the scope condition for car 1 and fails the selection filter
the source spells out, yet the effective filter accepts it (the duplicate
OR key in the where-object drops the scope condition), and a calculation
for car 1 ends at the price 99 fixed by that foreign rule. -/
theorem C2_scope_filter_dropped :
    ruleScopeOk carDyn ruleOtherCar = false
    ∧ ruleMatchesIntended carDyn ruleOtherCar 0 86400000 = false
    ∧ ruleMatches ruleOtherCar 0 86400000 = true
    ∧ pricePerDayOf (calculateDynamicPrice (some carDyn) 100 1 1 1 1
        [ruleOtherCar] 0 86400000) = 99 := by
  refine ⟨by norm_num [ruleScopeOk, carDyn, ruleOtherCar, ruleFixed50], ?_, ?_, ?_⟩
  · norm_num [ruleMatchesIntended, ruleScopeOk, ruleDatesOk, carDyn, ruleOtherCar, ruleFixed50]
  · norm_num [ruleMatches, ruleDatesOk, ruleOtherCar, ruleFixed50]
  · norm_num [pricePerDayOf, calculateDynamicPrice, clampedDynamicPrice, applyPricingRules,
      sortRulesDesc, insertRuleDesc, applyRuleStep, applyRule, ruleMatches, ruleDatesOk,
      jsFalsyOr, getMaintenanceMultiplier, calculateDurationMultiplier, rentalDuration,
      round2, carDyn, ruleOtherCar, ruleFixed50]

/- ## C5: duration error handling -/

/-- Counterexample to claim C5: for a car whose dynamic-pricing flag is
disabled, a request whose computed duration is 0 does not abort; the
calculation returns a successful fixed-price result. -/
theorem C5_counterexample :
    calcOk (calculateDynamicPrice (some carFixedPrice) 100 1 1 1 1 [] 0 0) = true
    ∧ rentalDuration 0 0 < 1 := by
  constructor
  · norm_num [calcOk, calculateDynamicPrice, carFixedPrice, carDyn]
  · norm_num [rentalDuration]

/-- Claim C5 as amended: a computed duration below 1 day aborts the
calculation with an explicit error only on the dynamic-pricing path; when
the dynamic-pricing flag is disabled the calculation returns the
fixed-price result without any duration check. -/
theorem C5_duration_check :
    (∀ (car : Car) (basePrice demandM seasonalM utilizationM customerM : ℚ)
        (rules : List PricingRule) (startDate endDate : ℤ),
      car.availableForLease = true → car.useDynamicPricing = true →
      rentalDuration startDate endDate < 1 →
      calculateDynamicPrice (some car) basePrice demandM seasonalM utilizationM customerM
        rules startDate endDate = .error "Rental duration must be at least 1 day")
    ∧ (∀ (car : Car) (basePrice demandM seasonalM utilizationM customerM : ℚ)
        (rules : List PricingRule) (startDate endDate : ℤ),
      car.availableForLease = true → car.useDynamicPricing = false →
      calcOk (calculateDynamicPrice (some car) basePrice demandM seasonalM utilizationM
        customerM rules startDate endDate) = true) := by
  constructor
  · intro car basePrice demandM seasonalM utilizationM customerM rules startDate endDate h1 h2 h3
    simp [calculateDynamicPrice, h1, h2, h3]
  · intro car basePrice demandM seasonalM utilizationM customerM rules startDate endDate h1 h2
    simp [calculateDynamicPrice, calcOk, h1, h2]

/-- Witness for C5: the abort applied to the dynamic car with an empty
range, and the no-check branch applied to the fixed-price car. -/
theorem C5_witness :
    calculateDynamicPrice (some carDyn) 100 1 1 1 1 [] 0 0
      = .error "Rental duration must be at least 1 day"
    ∧ calcOk (calculateDynamicPrice (some carFixedPrice) 100 1 1 1 1 [] 0 0) = true :=
  ⟨C5_duration_check.1 carDyn 100 1 1 1 1 [] 0 0 rfl rfl (by norm_num [rentalDuration]),
   C5_duration_check.2 carFixedPrice 100 1 1 1 1 [] 0 0 rfl rfl⟩

/- ## C10: falsy zero fallback after rule resolution -/

/-- Claim C10: when rule resolution yields a final price of exactly 0,
the orchestrator does not return 0 but silently falls back to the
pre-rule clamped dynamic price as the returned per-day price. -/
theorem C10_zero_fallback (car : Car) (basePrice demandM seasonalM utilizationM customerM : ℚ)
    (rules : List PricingRule) (startDate endDate : ℤ)
    (h1 : car.availableForLease = true) (h2 : car.useDynamicPricing = true)
    (h3 : ¬ rentalDuration startDate endDate < 1)
    (h4 : (applyPricingRules rules startDate endDate
        (clampedDynamicPrice car basePrice demandM seasonalM utilizationM customerM
          (rentalDuration startDate endDate))).finalPrice = 0) :
    pricePerDayOf (calculateDynamicPrice (some car) basePrice demandM seasonalM utilizationM
        customerM rules startDate endDate)
      = clampedDynamicPrice car basePrice demandM seasonalM utilizationM customerM
          (rentalDuration startDate endDate) := by
  simp [calculateDynamicPrice, pricePerDayOf, h1, h2, h3, h4]

/-- Witness for C10: a matching active rule fixing the price to 0 with no
min clamp makes the resolver return 0, and the calculation then returns
the clamped dynamic price (here 100) instead of 0. -/
theorem C10_witness :
    pricePerDayOf (calculateDynamicPrice (some carDyn) 100 1 1 1 1 [ruleFixedZero] 0 86400000)
      = clampedDynamicPrice carDyn 100 1 1 1 1 (rentalDuration 0 86400000) := by
  have h4 : (applyPricingRules [ruleFixedZero] 0 86400000
      (clampedDynamicPrice carDyn 100 1 1 1 1 (rentalDuration 0 86400000))).finalPrice = 0 := by
    norm_num [applyPricingRules, sortRulesDesc, insertRuleDesc, applyRuleStep, applyRule,
      ruleMatches, ruleDatesOk, round2, clampedDynamicPrice, jsFalsyOr,
      getMaintenanceMultiplier, calculateDurationMultiplier, rentalDuration,
      carDyn, ruleFixedZero, ruleFixed50]
  exact C10_zero_fallback carDyn 100 1 1 1 1 [ruleFixedZero] 0 86400000 rfl rfl
    (by norm_num [rentalDuration]) h4

/- ## C3: price bounds -/

/-- Counterexample to claim C3: a car with both bounds set to 40 and 60
has its clamped dynamic price capped at 60, but a matching fixed-price
rule then overrides the final per-day price to 500, far outside the
bounds, so the invariant does not survive rule resolution. -/
theorem C3_counterexample :
    pricePerDayOf (calculateDynamicPrice (some carBounded) 100 1 1 1 1
      [ruleFixed500] 0 86400000) = 500 ∧ ¬ ((500 : ℚ) ≤ 60) := by
  constructor
  · norm_num [pricePerDayOf, calculateDynamicPrice, clampedDynamicPrice, applyPricingRules,
      sortRulesDesc, insertRuleDesc, applyRuleStep, applyRule, ruleMatches, ruleDatesOk,
      jsFalsyOr, getMaintenanceMultiplier, calculateDurationMultiplier, rentalDuration,
      round2, carBounded, carDyn, ruleFixed500, ruleFixed50]
  · norm_num

/-- Claim C3 as amended: when both vehicle bounds are set to whole-cent
amounts with 0 < min ≤ max and no active pricing rule matches the
request, the final per-day price lies within the bounds; rule resolution
can otherwise move the final price outside them. -/
theorem C3_bounds_without_rules (car : Car)
    (basePrice demandM seasonalM utilizationM customerM : ℚ)
    (rules : List PricingRule) (startDate endDate : ℤ) (a b : ℤ)
    (h1 : car.availableForLease = true) (h2 : car.useDynamicPricing = true)
    (h3 : ¬ rentalDuration startDate endDate < 1)
    (hmin : car.minPricePerDay = some ((a : ℚ) / 100))
    (hmax : car.maxPricePerDay = some ((b : ℚ) / 100))
    (ha : 1 ≤ a) (hab : a ≤ b)
    (hrules : rules.filter (fun r => ruleMatches r startDate endDate) = []) :
    (a : ℚ) / 100 ≤ pricePerDayOf (calculateDynamicPrice (some car) basePrice demandM
        seasonalM utilizationM customerM rules startDate endDate)
    ∧ pricePerDayOf (calculateDynamicPrice (some car) basePrice demandM
        seasonalM utilizationM customerM rules startDate endDate) ≤ (b : ℚ) / 100 := by
  have haq : (1 : ℚ) ≤ (a : ℚ) := by exact_mod_cast ha
  have hbq : (a : ℚ) ≤ (b : ℚ) := by exact_mod_cast hab
  have ha0 : (0 : ℚ) < (a : ℚ) / 100 := by linarith
  have hb0 : (0 : ℚ) < (b : ℚ) / 100 := by linarith
  have habq : (a : ℚ) / 100 ≤ (b : ℚ) / 100 := by linarith
  have hkey : pricePerDayOf (calculateDynamicPrice (some car) basePrice demandM
      seasonalM utilizationM customerM rules startDate endDate)
      = clampedDynamicPrice car basePrice demandM seasonalM utilizationM customerM
          (rentalDuration startDate endDate) := by
    simp [calculateDynamicPrice, pricePerDayOf, h1, h2, h3,
      applyPricingRules, hrules, sortRulesDesc]
  rw [hkey]
  unfold clampedDynamicPrice
  simp only [hmin, hmax, jsFalsyOr, ha0.ne', hb0.ne', if_neg]
  constructor
  · exact round2_intdiv_le (le_max_left _ _)
  · exact round2_le_intdiv (max_le habq (min_le_left _ _))

/-- Witness for C3: the bounds hold for the fixture car with bounds 40
and 60 and no rules. -/
theorem C3_witness :
    (4000 : ℚ) / 100 ≤ pricePerDayOf (calculateDynamicPrice (some carBounded)
        100 1 1 1 1 [] 0 86400000)
    ∧ pricePerDayOf (calculateDynamicPrice (some carBounded)
        100 1 1 1 1 [] 0 86400000) ≤ (6000 : ℚ) / 100 :=
  C3_bounds_without_rules carBounded 100 1 1 1 1 [] 0 86400000 4000 6000 rfl rfl
    (by norm_num [rentalDuration]) (by norm_num [carBounded, carDyn])
    (by norm_num [carBounded, carDyn]) (by norm_num) (by norm_num) rfl

/- ## C6: snapshot round-trip -/

/-- Counterexample to claim C6: for a car with maintenance score 50 the
persisted snapshot records final price 85, but the product of the base
price with every recorded multiplier field is 100 — the snapshot has no
maintenance-multiplier column — so the round-trip misses by 15, far more
than one cent. -/
theorem C6_counterexample :
    snapC6.finalPrice = 85
    ∧ round2 (snapC6.basePrice * snapC6.demandMultiplier * snapC6.seasonalMultiplier
        * snapC6.utilizationMultiplier * snapC6.durationMultiplier
        * snapC6.customerMultiplier) = 100
    ∧ ¬ (|(100 : ℚ) - 85| ≤ 1 / 100) := by
  refine ⟨?_, ?_, ?_⟩
  · norm_num [snapC6, savePricingSnapshot, getResult, calculateDynamicPrice,
      clampedDynamicPrice, applyPricingRules, sortRulesDesc, jsFalsyOr,
      getMaintenanceMultiplier, calculateDurationMultiplier, rentalDuration,
      round2, carMaint50, carDyn]
  · norm_num [snapC6, savePricingSnapshot, getResult, calculateDynamicPrice,
      clampedDynamicPrice, applyPricingRules, sortRulesDesc, jsFalsyOr,
      getMaintenanceMultiplier, calculateDurationMultiplier, rentalDuration,
      round2, carMaint50, carDyn]
  · rw [show |(100 : ℚ) - 85| = 15 by rw [abs_of_nonneg] <;> norm_num]
    norm_num

/-- Claim C6 as amended: a snapshot written by a persist call on the
dynamic path with no matching rule satisfies the round-trip only once the
maintenance multiplier of the car and the constraint clamp are included:
its final price equals the clamped, rounded product of its recorded base
price, its recorded multipliers and the maintenance multiplier. -/
theorem C6_snapshot_roundtrip (car : Car)
    (basePrice demandM seasonalM utilizationM customerM : ℚ)
    (rules : List PricingRule) (startDate endDate : ℤ)
    (totalCars activeContracts : ℤ) (snap : PricingSnapshot)
    (h1 : car.availableForLease = true) (h2 : car.useDynamicPricing = true)
    (h3 : ¬ rentalDuration startDate endDate < 1)
    (hrules : rules.filter (fun r => ruleMatches r startDate endDate) = [])
    (hsnap : snap = savePricingSnapshot
        (getResult (calculateDynamicPrice (some car) basePrice demandM seasonalM
          utilizationM customerM rules startDate endDate)) totalCars activeContracts) :
    snap.finalPrice = clampedDynamicPrice car snap.basePrice snap.demandMultiplier
      snap.seasonalMultiplier snap.utilizationMultiplier snap.customerMultiplier
      (rentalDuration startDate endDate) := by
  subst hsnap
  simp [savePricingSnapshot, getResult, calculateDynamicPrice, h1, h2, h3,
    applyPricingRules, hrules, sortRulesDesc]

/-- Witness for C6: the amended round-trip evaluated on the snapshot of
the maintenance-score-50 fixture calculation. -/
theorem C6_witness :
    snapC6.finalPrice = clampedDynamicPrice carMaint50 snapC6.basePrice
      snapC6.demandMultiplier snapC6.seasonalMultiplier snapC6.utilizationMultiplier
      snapC6.customerMultiplier (rentalDuration 0 86400000) :=
  C6_snapshot_roundtrip carMaint50 100 1 1 1 1 [] 0 86400000 10 2 snapC6 rfl rfl
    (by norm_num [rentalDuration]) rfl rfl
